import Mathlib

/-!
Verification development for the AIR_MVP_Local incident-retrieval service.

The definitions below are a shallow embedding of the Python sources:
* src/search_engine.py  (HybridSearchEngine.search_similar)
* src/llm_service.py    (IncidentAnalyzer.analyze_incident, _generate_analysis)
* src/setup_database.py (schema: incidents table with TEXT PRIMARY KEY id)

External adapters (the sentence-transformer encoder, the qdrant index and
the PostgreSQL table) are modelled as components of an environment record:
the encoder is an arbitrary function from strings to vectors, the index an
arbitrary function from a vector and a limit to a hit list, and the store a
list of rows with the semantics of the SELECT ... WHERE id IN (...) query
issued by the engine.  Similarity scores (Python floats compared only by
order in this code) are modelled as rationals.
-/

namespace AirMvp

/-- A qdrant hit: payload fields incident_id and tech_stack (written at
ingest time by setup_database.py) plus the similarity score.
search_similar reads only incident_id and score from it. -/
structure Hit where
  incident_id : String
  stack_tag : String
  score : ℚ
deriving DecidableEq, Repr

/-- One row of the incidents table (setup_database.py, CREATE TABLE
incidents: id TEXT PRIMARY KEY, title, description, tech_stack,
error_type, root_cause, solution TEXT[], service). -/
structure Row where
  id : String
  title : String
  description : String
  tech_stack : String
  error_type : String
  root_cause : String
  solution : List String
  service : String
deriving DecidableEq, Repr

/-- The incident dict built in step 5 of search_similar: the row fields
plus the attached similarity_score. -/
structure ScoredIncident where
  id : String
  title : String
  description : String
  tech_stack : String
  error_type : String
  root_cause : String
  solution : List String
  service : String
  similarity_score : ℚ
deriving DecidableEq, Repr

/-- The dict returned by search_similar. -/
structure SearchResult where
  same_stack : List ScoredIncident
  cross_stack : List ScoredIncident
  all_results : List ScoredIncident
deriving DecidableEq, Repr

/-- Number of calls made to each external adapter during one
search_similar call (the embedding model, the qdrant index, the
PostgreSQL cursor). -/
structure Counts where
  embed : Nat
  index : Nat
  store : Nat
deriving DecidableEq, Repr

/-- The environment of one search_similar call: the embedding model
(model.encode), the vector index (qdrant query, taking the query vector
and the requested limit) and the incidents table contents. -/
structure Env where
  encode : String → List ℚ
  index : List ℚ → Nat → List Hit
  db : List Row

/-- Step 3 of search_similar builds
similarity_scores = a dict comprehension over results_list keyed by
incident_id: a Python dict comprehension lets LATER duplicates overwrite
earlier ones, so the stored score of an id is the score of its last
occurrence.  Step 5 reads it back with .get(row id, 0.0). -/
def scoreOf (hits : List Hit) (i : String) : ℚ :=
  match (hits.filter (fun h => h.incident_id == i)).getLast? with
  | some h => h.score
  | none => 0

/-- The error message with which psycopg2 surfaces the malformed query. -/
def sqlSyntaxError : String :=
  "psycopg2.errors.SyntaxError: syntax error at or near RPAREN"

/-- Step 4 of search_similar: placeholders = a comma-join of one percent-s
per id, interpolated into SELECT ... WHERE id IN (placeholders).  When the
id list is empty the SQL reads WHERE id IN (), which PostgreSQL rejects,
so cursor.execute raises.  Otherwise the SELECT returns each matching row
at most once (id is the primary key); PostgreSQL row order is unspecified,
modelled here as table order. -/
def fetchRows (db : List Row) (ids : List String) : Except String (List Row) :=
  if ids.isEmpty then Except.error sqlSyntaxError
  else Except.ok (db.filter (fun r => ids.contains r.id))

/-- Step 5 of search_similar, one iteration: the incident dict from a row,
with similarity_score looked up by id (default 0.0). -/
def toScored (hits : List Hit) (r : Row) : ScoredIncident :=
  { id := r.id
    title := r.title
    description := r.description
    tech_stack := r.tech_stack
    error_type := r.error_type
    root_cause := r.root_cause
    solution := r.solution
    service := r.service
    similarity_score := scoreOf hits r.id }

/-- Step 5 of search_similar: the incidents list built from the fetched
rows. -/
def buildIncidents (hits : List Hit) (rows : List Row) : List ScoredIncident :=
  rows.map (toScored hits)

/-- Step 6 of search_similar, the branch condition:
if current_tech_stack and inc tech_stack == current_tech_stack.
Python truthiness: None and the empty string are both falsy. -/
def sameStackTest (cur : Option String) (inc : ScoredIncident) : Bool :=
  match cur with
  | none => false
  | some s => !(s == "") && inc.tech_stack == s

/-- The comparison used by step 7 of search_similar. -/
def scoreGE (a b : ScoredIncident) : Prop :=
  b.similarity_score ≤ a.similarity_score

instance : DecidableRel scoreGE :=
  fun a b => inferInstanceAs (Decidable (b.similarity_score ≤ a.similarity_score))

instance : IsTotal ScoredIncident scoreGE :=
  ⟨fun a b => le_total b.similarity_score a.similarity_score⟩

instance : IsTrans ScoredIncident scoreGE :=
  ⟨fun _ _ _ hab hbc => le_trans hbc hab⟩

/-- Step 7 of search_similar: list.sort(key=similarity_score,
reverse=True).  Python list.sort is stable, and a stable sort by a fixed
key has a unique result, so the stable insertion sort with the
greater-or-equal-by-score relation computes exactly the same list. -/
def sortByScoreDesc (l : List ScoredIncident) : List ScoredIncident :=
  l.insertionSort scoreGE

/-- HybridSearchEngine.search_similar, src/search_engine.py lines 33-116.
Returns the result (or the propagated database exception) together with
the number of calls made to each adapter.  The steps mirror the source:
encode the query, query the index for limit * 3 hits, collect ids and
scores, fetch rows (raising on an empty id list, see fetchRows), build
scored incidents, partition by sameStackTest, sort each partition
descending by score, and truncate.  all_results is the UNSORTED incidents
list truncated to limit: step 7 sorts only the two partition lists. -/
def search_similar (env : Env) (query : String) (current_tech_stack : Option String)
    (limit : Nat) : Except String SearchResult × Counts :=
  let query_vector := env.encode query
  let c1 : Counts := { embed := 1, index := 0, store := 0 }
  let results_list := env.index query_vector (limit * 3)
  let c2 : Counts := { c1 with index := 1 }
  let incident_ids := results_list.map (fun h => h.incident_id)
  let c3 : Counts := { c2 with store := 1 }
  match fetchRows env.db incident_ids with
  | Except.error e => (Except.error e, c3)
  | Except.ok rows =>
      let incidents := buildIncidents results_list rows
      let parts := incidents.partition (sameStackTest current_tech_stack)
      let same_sorted := sortByScoreDesc parts.1
      let cross_sorted := sortByScoreDesc parts.2
      (Except.ok
        { same_stack := same_sorted.take (limit / 2)
          cross_stack := cross_sorted.take (limit / 2)
          all_results := incidents.take limit }, c3)

/-- The hit list the vector index returns for a given call (steps 1-2). -/
def vectorHits (env : Env) (query : String) (limit : Nat) : List Hit :=
  env.index (env.encode query) (limit * 3)

/-- The full merged, unpartitioned scored-incident list of a call
(steps 3-5): the fetched rows, in fetch order, with scores attached. -/
def mergedIncidents (env : Env) (query : String) (limit : Nat) : List ScoredIncident :=
  buildIncidents (vectorHits env query limit)
    (env.db.filter (fun r =>
      ((vectorHits env query limit).map (fun h => h.incident_id)).contains r.id))

deriving instance DecidableEq for Except

/-- When the vector index returns no candidates, the id list is empty and
the interpolated SQL is rejected: the call propagates the database
exception. -/
theorem search_similar_fst_empty (env : Env) (q : String) (cur : Option String) (lim : Nat)
    (h : vectorHits env q lim = []) :
    (search_similar env q cur lim).1 = Except.error sqlSyntaxError := by
  simp only [vectorHits] at h
  simp [search_similar, fetchRows, h]

/-- When the vector index returns at least one candidate, the call
succeeds and the three output sequences are as computed in steps 5-8 from
the merged incident list. -/
theorem search_similar_fst_ok (env : Env) (q : String) (cur : Option String) (lim : Nat)
    (h : vectorHits env q lim ≠ []) :
    (search_similar env q cur lim).1 = Except.ok
      { same_stack := (sortByScoreDesc
          ((mergedIncidents env q lim).filter (sameStackTest cur))).take (lim / 2)
        cross_stack := (sortByScoreDesc
          ((mergedIncidents env q lim).filter
            (fun x => !(sameStackTest cur x)))).take (lim / 2)
        all_results := (mergedIncidents env q lim).take lim } := by
  simp only [vectorHits] at h
  have hids : ((env.index (env.encode q) (lim * 3)).map
      (fun h => h.incident_id)).isEmpty = false := by
    simp [List.isEmpty_iff, h]
  simp [search_similar, fetchRows, hids, mergedIncidents, vectorHits,
    List.partition_eq_filter_filter, Function.comp_def]

/-- A successful return forces the candidate list to be non-empty. -/
theorem hits_ne_of_ok (env : Env) (q : String) (cur : Option String) (lim : Nat)
    (r : SearchResult) (hok : (search_similar env q cur lim).1 = Except.ok r) :
    vectorHits env q lim ≠ [] := by
  intro hempty
  rw [search_similar_fst_empty env q cur lim hempty] at hok
  exact Except.noConfusion hok

/-- Both branches of search_similar call each adapter exactly once. -/
theorem search_similar_snd (env : Env) (q : String) (cur : Option String) (lim : Nat) :
    (search_similar env q cur lim).2 = { embed := 1, index := 1, store := 1 } := by
  cases hfr : fetchRows env.db
      ((env.index (env.encode q) (lim * 3)).map (fun h => h.incident_id)) <;>
    simp [search_similar, hfr]

/-- The ids of the merged incident list are the ids of the fetched rows. -/
theorem mergedIncidents_map_id (env : Env) (q : String) (lim : Nat) :
    (mergedIncidents env q lim).map ScoredIncident.id =
      (env.db.filter (fun r =>
        ((vectorHits env q lim).map (fun h => h.incident_id)).contains r.id)).map Row.id := by
  simp [mergedIncidents, buildIncidents, toScored, Function.comp]

/-- Every member of the merged incident list carries the score that the
similarity_scores dict assigns to its id. -/
theorem mergedIncidents_score (env : Env) (q : String) (lim : Nat)
    (x : ScoredIncident) (hx : x ∈ mergedIncidents env q lim) :
    x.similarity_score = scoreOf (vectorHits env q lim) x.id := by
  simp only [mergedIncidents, buildIncidents, List.mem_map] at hx
  obtain ⟨row, _, hrow⟩ := hx
  subst hrow
  rfl

/-- Membership in a truncated sorted partition implies membership in the
partition itself. -/
theorem mem_take_sort {l : List ScoredIncident} {n : Nat} {x : ScoredIncident}
    (hx : x ∈ (sortByScoreDesc l).take n) : x ∈ l :=
  ((List.perm_insertionSort scoreGE l).mem_iff).1 (List.mem_of_mem_take hx)

/-- A concrete store row used to exercise the theorems below. -/
def rJ1W : Row :=
  { id := "J1", title := "payment timeout", description := "pool exhausted",
    tech_stack := "java", error_type := "Timeout", root_cause := "pool too small",
    solution := ["raise pool size"], service := "payment" }

/-- A second concrete store row with a different tech stack. -/
def rP1W : Row :=
  { id := "P1", title := "api timeout", description := "connections leak",
    tech_stack := "python", error_type := "Timeout", root_cause := "leaked sessions",
    solution := ["close sessions"], service := "api" }

/-- A concrete environment: two stored incidents, and an index that
returns the python one with the higher score. -/
def envW : Env :=
  { encode := fun _ => []
    index := fun _ _ => [⟨"P1", "python", 9⟩, ⟨"J1", "java", 5⟩]
    db := [rJ1W, rP1W] }

/-- The java incident of envW as scored by the engine. -/
def incJ1W : ScoredIncident :=
  { id := "J1", title := "payment timeout", description := "pool exhausted",
    tech_stack := "java", error_type := "Timeout", root_cause := "pool too small",
    solution := ["raise pool size"], service := "payment", similarity_score := 5 }

/-- The python incident of envW as scored by the engine. -/
def incP1W : ScoredIncident :=
  { id := "P1", title := "api timeout", description := "connections leak",
    tech_stack := "python", error_type := "Timeout", root_cause := "leaked sessions",
    solution := ["close sessions"], service := "api", similarity_score := 9 }

/-- The result of search_similar on envW with current stack java. -/
def resW : SearchResult :=
  { same_stack := [incJ1W], cross_stack := [incP1W], all_results := [incJ1W, incP1W] }

/-- C1: for every successful call, when a non-empty current stack S is
supplied every element of the returned same_stack has tech_stack S and no
element of the returned cross_stack has tech_stack S; when no current
stack is supplied (None) the returned same_stack is empty and the
partition step places every fetched incident in the cross partition (of
which the returned cross_stack is the sorted, truncated top). -/
theorem claim1_stack_partition (env : Env) (q : String) (cur : Option String) (lim : Nat)
    (r : SearchResult) (hok : (search_similar env q cur lim).1 = Except.ok r) :
    (∀ s, cur = some s → s ≠ "" →
      (∀ x ∈ r.same_stack, x.tech_stack = s) ∧ (∀ x ∈ r.cross_stack, x.tech_stack ≠ s)) ∧
    (cur = none → r.same_stack = [] ∧
      ((mergedIncidents env q lim).partition (sameStackTest none)).2 =
        mergedIncidents env q lim) := by
  have hne := hits_ne_of_ok env q cur lim r hok
  rw [search_similar_fst_ok env q cur lim hne, Except.ok.injEq] at hok
  subst hok
  constructor
  · intro s hcur hs
    subst hcur
    constructor
    · intro x hx
      have hxf := mem_take_sort hx
      have hpx := List.of_mem_filter hxf
      simp [sameStackTest, hs] at hpx
      exact hpx
    · intro x hx
      have hxf := mem_take_sort hx
      have hpx := List.of_mem_filter hxf
      simp [sameStackTest, hs] at hpx
      exact hpx
  · intro hcur
    subst hcur
    constructor
    · have hfe : (mergedIncidents env q lim).filter (sameStackTest none) = [] := by
        simp [sameStackTest]
      simp [hfe, sortByScoreDesc, List.insertionSort]
    · simp [List.partition_eq_filter_filter, sameStackTest]

/-- C1 witness: on envW with current stack java, the same-stack element is
a java incident and the cross-stack element is not. -/
theorem claim1_stack_partition_witness :
    incJ1W.tech_stack = "java" ∧ incP1W.tech_stack ≠ "java" :=
  ⟨((claim1_stack_partition envW "q" (some "java") 10 resW (by decide)).1
      "java" rfl (by decide)).1 incJ1W (by decide),
   ((claim1_stack_partition envW "q" (some "java") 10 resW (by decide)).1
      "java" rfl (by decide)).2 incP1W (by decide)⟩

/-- C5: for every successful call, the returned same_stack and
cross_stack are each sorted descending by similarity_score: every
adjacent pair satisfies earlier score greater than or equal to later
score. -/
theorem claim5_partitions_sorted_desc (env : Env) (q : String) (cur : Option String)
    (lim : Nat) (r : SearchResult)
    (hok : (search_similar env q cur lim).1 = Except.ok r) :
    List.Chain' scoreGE r.same_stack ∧ List.Chain' scoreGE r.cross_stack := by
  have hne := hits_ne_of_ok env q cur lim r hok
  rw [search_similar_fst_ok env q cur lim hne, Except.ok.injEq] at hok
  subst hok
  constructor <;>
    exact List.Pairwise.chain'
      (List.Pairwise.sublist (List.take_sublist _ _)
        (List.sorted_insertionSort scoreGE _))

/-- C5 witness: both partitions of the concrete result are sorted
descending. -/
theorem claim5_partitions_sorted_desc_witness :
    List.Chain' scoreGE resW.same_stack ∧ List.Chain' scoreGE resW.cross_stack :=
  claim5_partitions_sorted_desc envW "q" (some "java") 10 resW (by decide)

/-- C7: for every successful call against a store whose ids are unique
(id is the table's primary key), no incident id appears twice within the
returned same_stack, none appears twice within the returned cross_stack,
and no id appears in both, even when the vector index yields duplicate
candidate ids. -/
theorem claim7_no_duplicate_ids (env : Env) (q : String) (cur : Option String) (lim : Nat)
    (r : SearchResult)
    (hdb : (env.db.map Row.id).Nodup)
    (hok : (search_similar env q cur lim).1 = Except.ok r) :
    (r.same_stack.map ScoredIncident.id).Nodup ∧
    (r.cross_stack.map ScoredIncident.id).Nodup ∧
    ∀ i ∈ r.same_stack.map ScoredIncident.id, i ∉ r.cross_stack.map ScoredIncident.id := by
  have hne := hits_ne_of_ok env q cur lim r hok
  rw [search_similar_fst_ok env q cur lim hne, Except.ok.injEq] at hok
  subst hok
  have hmerged : ((mergedIncidents env q lim).map ScoredIncident.id).Nodup := by
    rw [mergedIncidents_map_id]
    exact hdb.sublist (List.Sublist.map Row.id (List.filter_sublist _))
  have key : ∀ (p : ScoredIncident → Bool) (n : Nat),
      (((sortByScoreDesc ((mergedIncidents env q lim).filter p)).take n).map
        ScoredIncident.id).Nodup := by
    intro p n
    have h1 : (((mergedIncidents env q lim).filter p).map ScoredIncident.id).Nodup :=
      hmerged.sublist (List.Sublist.map _ (List.filter_sublist _))
    have h2 : ((sortByScoreDesc ((mergedIncidents env q lim).filter p)).map
        ScoredIncident.id).Nodup := by
      have hperm :=
        (List.perm_insertionSort scoreGE
          ((mergedIncidents env q lim).filter p)).map ScoredIncident.id
      exact hperm.nodup_iff.2 h1
    rw [List.map_take]
    exact h2.sublist (List.take_sublist _ _)
  refine ⟨key _ _, key _ _, ?_⟩
  intro i hiS hiC
  simp only [List.mem_map] at hiS hiC
  obtain ⟨x, hxmem, hxid⟩ := hiS
  obtain ⟨y, hymem, hyid⟩ := hiC
  have hxf := mem_take_sort hxmem
  have hyf := mem_take_sort hymem
  have hx' := List.of_mem_filter hxf
  have hy' := List.of_mem_filter hyf
  have hxy : x = y :=
    List.inj_on_of_nodup_map hmerged (List.mem_of_mem_filter hxf)
      (List.mem_of_mem_filter hyf) (by rw [hxid, hyid])
  rw [hxy] at hx'
  simp [hx'] at hy'

/-- C7 witness: on envW the concrete result has duplicate-free partitions
and the same-stack id J1 does not recur in cross_stack. -/
theorem claim7_no_duplicate_ids_witness :
    (resW.same_stack.map ScoredIncident.id).Nodup ∧
    (resW.cross_stack.map ScoredIncident.id).Nodup ∧
    "J1" ∉ resW.cross_stack.map ScoredIncident.id :=
  ⟨(claim7_no_duplicate_ids envW "q" (some "java") 10 resW (by decide) (by decide)).1,
   (claim7_no_duplicate_ids envW "q" (some "java") 10 resW (by decide) (by decide)).2.1,
   (claim7_no_duplicate_ids envW "q" (some "java") 10 resW (by decide) (by decide)).2.2
     "J1" (by decide)⟩

/-- C8: for every call whose vector candidates are non-empty, no error is
raised, any id absent from the store is omitted from all three returned
sequences, and every store row whose id is among the candidates is built
into the merged scored-incident list (from which the outputs are drawn),
even when the results fall below the requested limit. -/
theorem claim8_store_drift_dropped (env : Env) (q : String) (cur : Option String)
    (lim : Nat) (i : String)
    (hne : vectorHits env q lim ≠ [])
    (hi : i ∉ env.db.map Row.id) :
    (∀ e, (search_similar env q cur lim).1 ≠ Except.error e) ∧
    (∀ r, (search_similar env q cur lim).1 = Except.ok r →
      i ∉ r.same_stack.map ScoredIncident.id ∧
      i ∉ r.cross_stack.map ScoredIncident.id ∧
      i ∉ r.all_results.map ScoredIncident.id) ∧
    (∀ row ∈ env.db,
      row.id ∈ (vectorHits env q lim).map (fun h => h.incident_id) →
      toScored (vectorHits env q lim) row ∈ mergedIncidents env q lim) := by
  refine ⟨?_, ?_, ?_⟩
  · intro e he
    rw [search_similar_fst_ok env q cur lim hne] at he
    exact Except.noConfusion he
  · intro r hok
    rw [search_similar_fst_ok env q cur lim hne, Except.ok.injEq] at hok
    subst hok
    have hnotmerged : i ∉ (mergedIncidents env q lim).map ScoredIncident.id := by
      rw [mergedIncidents_map_id]
      intro hmem
      apply hi
      simp only [List.mem_map] at hmem ⊢
      obtain ⟨row, hrow, hid⟩ := hmem
      exact ⟨row, List.mem_of_mem_filter hrow, hid⟩
    refine ⟨?_, ?_, ?_⟩ <;> intro hmem <;> apply hnotmerged <;>
      simp only [List.mem_map] at hmem ⊢
    · obtain ⟨x, hx, hid⟩ := hmem
      exact ⟨x, List.mem_of_mem_filter (mem_take_sort hx), hid⟩
    · obtain ⟨x, hx, hid⟩ := hmem
      exact ⟨x, List.mem_of_mem_filter (mem_take_sort hx), hid⟩
    · obtain ⟨x, hx, hid⟩ := hmem
      exact ⟨x, List.mem_of_mem_take hx, hid⟩
  · intro row hrow hcand
    have hfil : row ∈ env.db.filter (fun rw =>
        ((vectorHits env q lim).map (fun h => h.incident_id)).contains rw.id) := by
      rw [List.mem_filter]
      exact ⟨hrow, by simpa using hcand⟩
    simpa [mergedIncidents, buildIncidents] using
      List.mem_map_of_mem (toScored (vectorHits env q lim)) hfil

/-- C8 witness: on envW the ghost id is nowhere in the result, no error is
raised, and the java row among the candidates is processed into the
merged list. -/
theorem claim8_store_drift_dropped_witness :
    ((search_similar envW "q" (some "java") 10).1 ≠ Except.error sqlSyntaxError) ∧
    "ghost" ∉ resW.same_stack.map ScoredIncident.id ∧
    "ghost" ∉ resW.cross_stack.map ScoredIncident.id ∧
    "ghost" ∉ resW.all_results.map ScoredIncident.id ∧
    toScored (vectorHits envW "q" 10) rJ1W ∈ mergedIncidents envW "q" 10 :=
  ⟨(claim8_store_drift_dropped envW "q" (some "java") 10 "ghost" (by decide)
      (by decide)).1 sqlSyntaxError,
   ((claim8_store_drift_dropped envW "q" (some "java") 10 "ghost" (by decide)
      (by decide)).2.1 resW (by decide)).1,
   ((claim8_store_drift_dropped envW "q" (some "java") 10 "ghost" (by decide)
      (by decide)).2.1 resW (by decide)).2.1,
   ((claim8_store_drift_dropped envW "q" (some "java") 10 "ghost" (by decide)
      (by decide)).2.1 resW (by decide)).2.2,
   (claim8_store_drift_dropped envW "q" (some "java") 10 "ghost" (by decide)
      (by decide)).2.2 rJ1W (by decide) (by decide)⟩

/-- C2 counterexample: search_similar has no empty-query check.  On the
empty query the embedding provider is still called (call count 1, not 0),
no InvalidQuery error is raised, and the call returns an ordinary result:
the claim that an empty query is rejected before any adapter call is
false. -/
theorem claim2_counterexample :
    (search_similar envW "" (some "java") 10).2.embed = 1 ∧
    (search_similar envW "" (some "java") 10).1 = Except.ok resW :=
  ⟨by decide, by decide⟩

/-- C2 amended: search_similar performs no validation of the query
string.  Every call, with an empty query or not, calls the embedding
provider, the vector index and the incident store each exactly once, and
when the index yields candidates the call completes without any error. -/
theorem claim2_amended_no_validation (env : Env) (q : String) (cur : Option String)
    (lim : Nat) :
    (search_similar env q cur lim).2 = { embed := 1, index := 1, store := 1 } ∧
    (vectorHits env q lim ≠ [] →
      ∀ e, (search_similar env q cur lim).1 ≠ Except.error e) := by
  refine ⟨search_similar_snd env q cur lim, fun hne e he => ?_⟩
  rw [search_similar_fst_ok env q cur lim hne] at he
  exact Except.noConfusion he

/-- C2 amended witness: the empty-query call on envW makes one call to
each adapter and raises nothing. -/
theorem claim2_amended_no_validation_witness :
    (search_similar envW "" (some "java") 10).2 = { embed := 1, index := 1, store := 1 } ∧
    (search_similar envW "" (some "java") 10).1 ≠ Except.error sqlSyntaxError :=
  ⟨(claim2_amended_no_validation envW "" (some "java") 10).1,
   (claim2_amended_no_validation envW "" (some "java") 10).2 (by decide) sqlSyntaxError⟩

/-- An environment whose vector index returns zero candidates. -/
def envEmptyIndex : Env :=
  { encode := fun _ => [], index := fun _ _ => [], db := [rJ1W] }

/-- C3 (code bug): when the vector index returns zero candidates the id
list is empty, the interpolated SQL reads WHERE id IN () - which
PostgreSQL rejects as a syntax error - and search_similar propagates the
database exception instead of returning the empty SearchResult that the
spec promises. -/
theorem claim3_zero_candidates_raise :
    (search_similar envEmptyIndex "database timeout" (some "java") 10).1 =
      Except.error sqlSyntaxError :=
  by decide

/-- Store rows for the C4 environment: the lower-scored row sits first in
table order. -/
def rA4 : Row :=
  { id := "A", title := "low", description := "d", tech_stack := "java",
    error_type := "E", root_cause := "rc", solution := ["s"], service := "svc" }

/-- Second store row for the C4 environment. -/
def rB4 : Row :=
  { id := "B", title := "high", description := "d", tech_stack := "python",
    error_type := "E", root_cause := "rc", solution := ["s"], service := "svc" }

/-- C4 environment: the index ranks B (score 9) above A (score 2), but
the store lists A before B. -/
def env4 : Env :=
  { encode := fun _ => []
    index := fun _ _ => [⟨"B", "python", 9⟩, ⟨"A", "java", 2⟩]
    db := [rA4, rB4] }

/-- The scored incident for rA4. -/
def incA4 : ScoredIncident :=
  { id := "A", title := "low", description := "d", tech_stack := "java",
    error_type := "E", root_cause := "rc", solution := ["s"], service := "svc",
    similarity_score := 2 }

/-- The scored incident for rB4. -/
def incB4 : ScoredIncident :=
  { id := "B", title := "high", description := "d", tech_stack := "python",
    error_type := "E", root_cause := "rc", solution := ["s"], service := "svc",
    similarity_score := 9 }

/-- C4 (code bug): all_results is the fetched incidents list truncated in
store-fetch order; step 7 sorts only the two partitions.  On env4 the
returned all_results carries scores 2 then 9, which is not descending, so
all_results is not an overall ranked (top-scoring, score-descending)
sequence.  The test block of search_engine.py itself prints all_results
under the header "ALL MATCHES (sorted by similarity)". -/
theorem claim4_all_results_not_ranked :
    (search_similar env4 "q" none 10).1 = Except.ok
      { same_stack := [], cross_stack := [incB4, incA4], all_results := [incA4, incB4] } ∧
    [incA4, incB4].map ScoredIncident.similarity_score = [2, 9] ∧
    ¬ ((9 : ℚ) ≤ 2) :=
  ⟨by decide, by decide, by decide⟩

/-- C6 environment: the same incident id occurs twice among the vector
candidates, first with score 9, then with score 2. -/
def env6 : Env :=
  { encode := fun _ => []
    index := fun _ _ => [⟨"A", "java", 9⟩, ⟨"A", "java", 2⟩]
    db := [rA4] }

/-- C6 counterexample: with duplicate candidates (id A at score 9 then at
score 2), the incident is built with score 2 - the score of the LAST
occurrence, because the Python dict comprehension lets later keys
overwrite earlier ones - and not the first-seen score 9 that the claim
states. -/
theorem claim6_counterexample :
    (search_similar env6 "q" none 10).1 = Except.ok
      { same_stack := [], cross_stack := [incA4], all_results := [incA4] } ∧
    incA4.similarity_score = 2 ∧ (2 : ℚ) ≠ 9 :=
  ⟨by decide, by decide, by decide⟩

/-- C6 amended: when an incident id occurs more than once among the
vector candidates, search_similar associates that id with the score of
its last occurrence in the candidate sequence: every returned incident
with that id carries the score of the occurrence after which the id does
not occur again. -/
theorem claim6_amended_last_score (env : Env) (q : String) (cur : Option String)
    (lim : Nat) (pre post : List Hit) (h : Hit)
    (hsplit : vectorHits env q lim = pre ++ h :: post)
    (hlast : ∀ h2 ∈ post, h2.incident_id ≠ h.incident_id)
    (r : SearchResult) (hok : (search_similar env q cur lim).1 = Except.ok r) :
    ∀ x ∈ r.all_results, x.id = h.incident_id → x.similarity_score = h.score := by
  have hne := hits_ne_of_ok env q cur lim r hok
  rw [search_similar_fst_ok env q cur lim hne, Except.ok.injEq] at hok
  subst hok
  intro x hx hxid
  have hxm : x ∈ mergedIncidents env q lim := List.mem_of_mem_take hx
  rw [mergedIncidents_score env q lim x hxm, hxid, scoreOf, hsplit,
    List.filter_append]
  have hpost : (h :: post).filter (fun h2 => h2.incident_id == h.incident_id) = [h] := by
    simp only [List.filter_cons]
    rw [if_pos (by simp)]
    simp only [List.cons.injEq, true_and]
    rw [List.filter_eq_nil_iff]
    intro h2 h2m
    simpa using hlast h2 h2m
  rw [hpost, List.getLast?_concat]

/-- C6 amended witness: on env6 (id A at score 9, then at score 2) the
returned incident for A carries score 2. -/
theorem claim6_amended_last_score_witness : incA4.similarity_score = 2 :=
  claim6_amended_last_score env6 "q" none 10 [⟨"A", "java", 9⟩] [] ⟨"A", "java", 2⟩
    (by decide) (by simp)
    { same_stack := [], cross_stack := [incA4], all_results := [incA4] }
    (by decide) incA4 (by decide) rfl

/-- Does the character list start with the given pattern? -/
def beginsWith : List Char → List Char → Bool
  | [], _ => true
  | _ :: _, [] => false
  | p :: ps, c :: cs => p == c && beginsWith ps cs

/-- Python substring containment (sub in s), over character lists. -/
def containsSub (sub : List Char) : List Char → Bool
  | [] => sub.isEmpty
  | c :: rest => beginsWith sub (c :: rest) || containsSub sub rest

/-- Python: sub in s. -/
def pyContains (s sub : String) : Bool :=
  containsSub sub.data s.data

/-- Scan for Python str.split(sep): at each position either the
(non-empty) separator is consumed or one character moves into the
accumulator, so fuel equal to the text length always suffices. -/
def splitOnAux (sep : List Char) : Nat → List Char → List Char → List (List Char)
  | _, acc, [] => [acc.reverse]
  | 0, acc, rest => [acc.reverse ++ rest]
  | fuel + 1, acc, c :: rest =>
    if beginsWith sep (c :: rest) then
      acc.reverse :: splitOnAux sep fuel [] (List.drop sep.length (c :: rest))
    else
      splitOnAux sep fuel (c :: acc) rest

/-- Python str.split(sep) for a non-empty separator: split on each
non-overlapping occurrence, left to right.  (Python raises on an empty
separator; the source only splits on the literal section markers.) -/
def pySplit (s sep : String) : List String :=
  if sep.isEmpty then [s]
  else (splitOnAux sep.data s.data.length [] s.data).map String.mk

/-- Scan for Python str.replace(pat, rep): replace every non-overlapping
occurrence, left to right. -/
def replaceAux (pat rep : List Char) : Nat → List Char → List Char
  | _, [] => []
  | 0, l => l
  | fuel + 1, c :: rest =>
    if beginsWith pat (c :: rest) then
      rep ++ replaceAux pat rep fuel (List.drop pat.length (c :: rest))
    else
      c :: replaceAux pat rep fuel rest

/-- Python str.replace(pat, rep) for a non-empty pattern. -/
def pyReplace (s pat rep : String) : String :=
  if pat.isEmpty then s
  else String.mk (replaceAux pat.data rep.data s.data.length s.data)

/-- Python str.strip() whitespace test (space, tab, newline, carriage
return, vertical tab, form feed). -/
def isPySpace (c : Char) : Bool :=
  c == ' ' || c == '\t' || c == '\n' || c == '\r' || c == '\x0b' || c == '\x0c'

/-- Python str.strip(): drop leading and trailing whitespace. -/
def pyStrip (s : String) : String :=
  String.mk (((s.data.dropWhile isPySpace).reverse.dropWhile isPySpace).reverse)

/-- IncidentAnalyzer._generate_analysis, src/llm_service.py lines 48-147,
with the language-model call abstracted by its outcome: Except.error e
models the Groq call raising an exception whose str() is e (caught by the
try block at line 146), Except.ok t models the call returning reply text
t.  The prompt construction (lines 51-107) only feeds that external call
and cannot affect the returned triple, so it is not modelled.  The result
is the (root_cause, solution, reasoning) triple; solution is a plain
string throughout, never a list of steps. -/
def generate_analysis (llm : Except String String) : String × String × String :=
  match llm with
  | Except.error e => ("Error: " ++ e, "LLM call failed", "Check API key")
  | Except.ok response_text =>
    let root_cause := "Unable to determine"
    let solution := "Manual investigation required"
    let reasoning := "Insufficient similar incidents found"
    if pyContains response_text "ROOT CAUSE:" then
      let parts := pySplit response_text "SOLUTION:"
      let root_cause := pyStrip (pyReplace (parts.getD 0 "") "ROOT CAUSE:" "")
      if parts.length > 1 then
        let solution_parts := pySplit (parts.getD 1 "") "REASONING:"
        let solution := pyStrip (solution_parts.getD 0 "")
        if solution_parts.length > 1 then
          (root_cause, solution, pyStrip (solution_parts.getD 1 ""))
        else
          (root_cause, solution, reasoning)
      else
        (root_cause, solution, reasoning)
    else
      (root_cause, solution, reasoning)

/-- The dict returned by IncidentAnalyzer.analyze_incident. -/
structure AnalyzeResult where
  same_stack : List ScoredIncident
  cross_stack : List ScoredIncident
  root_cause : String
  solution : String
  reasoning : String
  most_similar : Option ScoredIncident
deriving DecidableEq, Repr

/-- IncidentAnalyzer.analyze_incident, src/llm_service.py lines 18-46:
builds the search query as the description, a space, and the error
message (Python error_message or empty string), searches with the
caller's tech_stack and limit 10, generates the analysis triple, and
assembles the response.  most_similar is the first element of same_stack
when non-empty, else the first element of cross_stack, else None.
Exceptions from the search propagate to the caller. -/
def analyze_incident (env : Env) (llm : Except String String) (description : String)
    (tech_stack : String) (error_message : Option String) :
    Except String AnalyzeResult :=
  let search_query := description ++ " " ++ error_message.getD ""
  match (search_similar env search_query (some tech_stack) 10).1 with
  | Except.error e => Except.error e
  | Except.ok results =>
    let t := generate_analysis llm
    Except.ok
      { same_stack := results.same_stack.take 5
        cross_stack := results.cross_stack.take 5
        root_cause := t.1
        solution := t.2.1
        reasoning := t.2.2
        most_similar :=
          match results.same_stack with
          | inc :: _ => some inc
          | [] =>
            match results.cross_stack with
            | inc :: _ => some inc
            | [] => none }

/-- C9 counterexample: a reply that is unparseable against the section
markers (here the reply "hello", which lacks "ROOT CAUSE:") does NOT
produce the claimed fallback triple: _generate_analysis returns the
parse defaults, whose solution is "Manual investigation required" rather
than "LLM call failed" and whose reasoning is "Insufficient similar
incidents found" rather than "Check API key". -/
theorem claim9_counterexample :
    generate_analysis (Except.ok "hello") =
      ("Unable to determine", "Manual investigation required",
        "Insufficient similar incidents found") ∧
    "Manual investigation required" ≠ "LLM call failed" ∧
    "Insufficient similar incidents found" ≠ "Check API key" :=
  ⟨by decide, by decide, by decide⟩

/-- C9 amended: only when the language-model call raises does
_generate_analysis return the fixed fallback triple - root cause
"Error: " followed by the cause, solution the plain string
"LLM call failed" (not a list of steps), reasoning "Check API key".  A
reply lacking the "ROOT CAUSE:" marker instead yields the parse-default
triple.  In both cases a triple is returned, so no hard failure reaches
the caller from this function. -/
theorem claim9_amended_fallbacks (e s : String)
    (hs : pyContains s "ROOT CAUSE:" = false) :
    generate_analysis (Except.error e) =
      ("Error: " ++ e, "LLM call failed", "Check API key") ∧
    generate_analysis (Except.ok s) =
      ("Unable to determine", "Manual investigation required",
        "Insufficient similar incidents found") := by
  refine ⟨rfl, ?_⟩
  simp [generate_analysis, hs]

/-- C9 amended witness: the two fallback shapes at concrete inputs. -/
theorem claim9_amended_fallbacks_witness :
    generate_analysis (Except.error "boom") =
      ("Error: " ++ "boom", "LLM call failed", "Check API key") ∧
    generate_analysis (Except.ok "hello") =
      ("Unable to determine", "Manual investigation required",
        "Insufficient similar incidents found") :=
  claim9_amended_fallbacks "boom" "hello" (by decide)

/-- C10: for every successful analyze_incident call, most_similar is the
first element of the search result's same_stack when that is non-empty,
otherwise the first element of cross_stack, otherwise None - that is, the
head of same_stack followed by cross_stack - regardless of the two
heads' similarity scores. -/
theorem claim10_most_similar_priority (env : Env) (llm : Except String String)
    (d ts : String) (em : Option String) (res : SearchResult) (r : AnalyzeResult)
    (hs : (search_similar env (d ++ " " ++ em.getD "") (some ts) 10).1 = Except.ok res)
    (ha : analyze_incident env llm d ts em = Except.ok r) :
    r.most_similar = (res.same_stack ++ res.cross_stack).head? := by
  simp only [analyze_incident] at ha
  rw [hs] at ha
  simp only [Except.ok.injEq] at ha
  subst ha
  cases hsame : res.same_stack with
  | cons inc rest => simp
  | nil =>
    cases hcross : res.cross_stack with
    | cons inc rest => simp
    | nil => simp

/-- C10 witness: on envW the cross-stack head has the strictly higher
score (9 against 5), yet most_similar is the same-stack head. -/
theorem claim10_most_similar_priority_witness :
    ({ same_stack := [incJ1W], cross_stack := [incP1W],
       root_cause := "Error: " ++ "boom", solution := "LLM call failed",
       reasoning := "Check API key", most_similar := some incJ1W } :
        AnalyzeResult).most_similar =
      (resW.same_stack ++ resW.cross_stack).head? :=
  claim10_most_similar_priority envW (Except.error "boom") "q" "java" none resW
    { same_stack := [incJ1W], cross_stack := [incP1W],
      root_cause := "Error: " ++ "boom", solution := "LLM call failed",
      reasoning := "Check API key", most_similar := some incJ1W }
    (by decide) (by decide)

end AirMvp
